import Mathlib

/-!
# Verification of the PCA9685 16-channel PWM driver

Shallow embedding of `src/src/PCA9685.cpp` (class `PCA9685`).  The I2C
transport (`TwoWire`) is an external collaborator: we model it as an
oracle `BusEnv` that supplies the end-of-transmission status for each
write-type transmission (in call order) and the outcome of each one-byte
register read (in call order).  Every driver operation is embedded as a
function that threads an explicit `BusState` recording the sequence of
bus-level events it issues (register reads, register writes, the 5-byte
channel transmissions of `setPWM`, and the blocking delays), so that
theorems can speak about the exact order of register operations.

Machine integers are modelled as `Nat` with explicit `% 256` where the
C++ code narrows a value to `uint8_t`.  The float arithmetic of
`setPWMFreq` is modelled in exact rational arithmetic (`ℚ`): for the
inputs considered the float rounding error is many orders of magnitude
smaller than the distance of the intermediate value to a `floor`
boundary, so `floor` agrees between the two.
-/

namespace PCA9685

/-- A bus-level event issued by the driver, in program order. -/
inductive BusOp where
  /-- an address-then-read-one-byte register read (`read8`) of the given register -/
  | readReg (addr : ℕ)
  /-- a two-byte register write transmission (`write8`): register address, value -/
  | writeReg (addr : ℕ) (val : ℕ)
  /-- the 5-byte channel transmission of `setPWM` -/
  | pwmWrite (bytes : List ℕ)
  /-- a blocking `delay(ms)` -/
  | delayMs (ms : ℕ)
deriving DecidableEq, Repr

/-- The transport oracle: `writeResult n` is whether the `n`-th write-type
transmission of the call ends with status 0 (success); `readResult n` is the
outcome of the `n`-th register read (`none`: either phase failed or no byte
became available; `some v`: the byte `v` was read). -/
structure BusEnv where
  writeResult : ℕ → Bool
  readResult : ℕ → Option ℕ

/-- Driver-side bookkeeping: how many write-type transmissions and register
reads have already been issued in this call, and the trace of events. -/
structure BusState where
  wIdx : ℕ
  rIdx : ℕ
  events : List BusOp
deriving DecidableEq, Repr

def initState : BusState := ⟨0, 0, []⟩

/-- Register addresses.  Modelled from the spec: the header `PCA9685.h`
declaring the register-address macros is not under `src/`; the spec's
register map gives MODE1 and PRESCALE at fixed base addresses and the
channel blocks at `LED0_ON_L + 4×channel`.  The numeric values are the
chip's datasheet addresses; every claim uses them only symbolically. -/
def PCA9685_MODE1 : ℕ := 0x00

/-- Modelled from the spec: see `PCA9685_MODE1`. -/
def PCA9685_PRESCALE : ℕ := 0xFE

/-- Modelled from the spec: see `PCA9685_MODE1`. -/
def LED0_ON_L : ℕ := 0x06

/-- `PCA9685::write8`: one transmission of (register address, value); returns
whether `endTransmission()` reported 0.  Both bytes pass through
`TwoWire::write(uint8_t)`, hence `% 256`. -/
def write8 (env : BusEnv) (addr d : ℕ) (s : BusState) : Bool × BusState :=
  (env.writeResult s.wIdx,
   ⟨s.wIdx + 1, s.rIdx, s.events ++ [BusOp.writeReg (addr % 256) (d % 256)]⟩)

/-- `PCA9685::read8` at the granularity of one register read: the oracle
answers `none` when the address phase fails or zero bytes are available, and
`some v` when byte `v` is read (narrowed to `uint8_t`). -/
def read8 (env : BusEnv) (addr : ℕ) (s : BusState) : Option ℕ × BusState :=
  ((env.readResult s.rIdx).map (· % 256),
   ⟨s.wIdx, s.rIdx + 1, s.events ++ [BusOp.readReg (addr % 256)]⟩)

/-- `delay(ms)` as a trace event. -/
def delayOp (ms : ℕ) (s : BusState) : BusState :=
  ⟨s.wIdx, s.rIdx, s.events ++ [BusOp.delayMs ms]⟩

/-- `PCA9685::read8` modelled at the level of its body, for claims about the
output pointer: `endStatus` is the address-phase `endTransmission(false)`
status, `avail` the byte count reported by `available()`, `busByte` the byte
`read()` would produce, and `out` the content of the caller's output
location.  Returns (success, content of the output location afterwards). -/
def read8Detail (endStatus avail busByte out : ℕ) : Bool × ℕ :=
  if endStatus ≠ 0 then (false, out)
  else if avail = 0 then (false, out)
  else (true, busByte % 256)

/-- `PCA9685::reset`, threading an explicit state. -/
def resetFrom (env : BusEnv) (s : BusState) : Bool × BusState :=
  let r := write8 env PCA9685_MODE1 0x80 s
  if r.fst then (true, delayOp 10 r.snd) else (false, r.snd)

def reset (env : BusEnv) : Bool × BusState := resetFrom env initState

/-- The prescale computation of `PCA9685::setPWMFreq` in exact rational
arithmetic: freq *= 0.9; prescaleval = 25000000/4096/freq - 1;
prescale = floor(prescaleval + 0.5) narrowed to `uint8_t` (a value outside
the `uint8_t` range in the float-to-integer conversion is undefined in the
source; it is modelled as `Int.toNat` followed by `% 256`). -/
def prescaleFromFreq (freq : ℚ) : ℕ :=
  let f := freq * (9 / 10)
  let prescaleval : ℚ := 25000000 / 4096 / f - 1
  (Int.floor (prescaleval + 1 / 2)).toNat % 256

/-- `PCA9685::setPWMFreq`, threading an explicit state. -/
def setPWMFreqFrom (env : BusEnv) (freq : ℚ) (s : BusState) : Bool × BusState :=
  let prescale := prescaleFromFreq freq
  match read8 env PCA9685_MODE1 s with
  | (none, s1) => (false, s1)
  | (some oldmode, s1) =>
    let newmode := (oldmode &&& 0x7F) ||| 0x10
    let r1 := write8 env PCA9685_MODE1 newmode s1
    if !r1.fst then (false, r1.snd) else
    let r2 := write8 env PCA9685_PRESCALE prescale r1.snd
    if !r2.fst then (false, r2.snd) else
    let r3 := write8 env PCA9685_MODE1 oldmode r2.snd
    if !r3.fst then (false, r3.snd) else
    let s4 := delayOp 5 r3.snd
    let r4 := write8 env PCA9685_MODE1 (oldmode ||| 0xA0) s4
    if !r4.fst then (false, r4.snd) else (true, r4.snd)

def setPWMFreq (env : BusEnv) (freq : ℚ) : Bool × BusState :=
  setPWMFreqFrom env freq initState

/-- The five bytes of `setPWM`'s transmission: register address
`LED0_ON_L + 4*num` (the sum is computed in `int` and narrowed by
`TwoWire::write(uint8_t)`), then on low, on high, off low, off high. -/
def pwmBytes (num onT offT : ℕ) : List ℕ :=
  [(LED0_ON_L + 4 * num) % 256, onT % 256, (onT >>> 8) % 256, offT % 256, (offT >>> 8) % 256]

/-- `PCA9685::setPWM`, threading an explicit state. -/
def setPWMFrom (env : BusEnv) (num onT offT : ℕ) (s : BusState) : Bool × BusState :=
  (env.writeResult s.wIdx,
   ⟨s.wIdx + 1, s.rIdx, s.events ++ [BusOp.pwmWrite (pwmBytes num onT offT)]⟩)

def setPWM (env : BusEnv) (num onT offT : ℕ) : Bool × BusState :=
  setPWMFrom env num onT offT initState

/-- The duty-to-(on, off) mapping of `PCA9685::setPin`: clamp to 4095, then
the invert / non-invert branches, each branch returning the (on, off) pair
the body passes to `setPWM` (both start at 0 and at most one is assigned). -/
def setPinArgs (val : ℕ) (invert : Bool) : ℕ × ℕ :=
  let v := min val 4095
  if invert then
    if v = 0 then (4096, 0)
    else if v = 4095 then (0, 4096)
    else (0, 4095 - v)
  else
    if v = 4095 then (4096, 0)
    else if v = 0 then (0, 4096)
    else (0, v)

/-- `PCA9685::setPin`, threading an explicit state. -/
def setPinFrom (env : BusEnv) (num val : ℕ) (invert : Bool) (s : BusState) : Bool × BusState :=
  setPWMFrom env num (setPinArgs val invert).1 (setPinArgs val invert).2 s

def setPin (env : BusEnv) (num val : ℕ) (invert : Bool) : Bool × BusState :=
  setPinFrom env num val invert initState

/-- `PCA9685::begin`: reset, then default frequency 1000. -/
def beginOp (env : BusEnv) : Bool × BusState :=
  let r := resetFrom env initState
  if !r.fst then (false, r.snd) else setPWMFreqFrom env 1000 r.snd

/-! ## Concrete transport oracles used by counterexamples and witnesses -/

/-- Every transmission succeeds; MODE1 reads back 0x80 (restart bit set). -/
def envRestartSet : BusEnv := ⟨fun _ => true, fun _ => some 0x80⟩

/-- Every transmission succeeds; MODE1 reads back 0x10 (sleep bit set). -/
def envSleepSet : BusEnv := ⟨fun _ => true, fun _ => some 0x10⟩

/-- Every transmission succeeds; MODE1 reads back 0x00. -/
def envAllOk : BusEnv := ⟨fun _ => true, fun _ => some 0x00⟩

/-- Every transmission fails; no byte is ever available. -/
def envAllFail : BusEnv := ⟨fun _ => false, fun _ => none⟩

/-- Write-type transmission `k` fails, earlier ones succeed; MODE1 reads back 0x21. -/
def envFailAt (k : ℕ) : BusEnv := ⟨fun i => decide (i ≠ k), fun _ => some 0x21⟩

/-! ## Helper lemmas -/

lemma prescale_1000 : prescaleFromFreq 1000 = 6 := by
  unfold prescaleFromFreq
  norm_num
  decide

lemma prescale_lt (f : ℚ) : prescaleFromFreq f < 256 :=
  Nat.mod_lt _ (by norm_num)

lemma sleepmode_lt (old : ℕ) : (old &&& 0x7F) ||| 0x10 < 256 := by
  have h1 : old &&& 0x7F < 2 ^ 8 := Nat.and_lt_two_pow old (by norm_num)
  have h2 : (0x10 : ℕ) < 2 ^ 8 := by norm_num
  have h3 := Nat.or_lt_two_pow h1 h2
  norm_num at h3
  exact h3

lemma orA0_lt {old : ℕ} (h : old < 256) : old ||| 0xA0 < 256 := by
  have h1 : old < 2 ^ 8 := by norm_num at h ⊢; exact h
  have h2 : (0xA0 : ℕ) < 2 ^ 8 := by norm_num
  have h3 := Nat.or_lt_two_pow h1 h2
  norm_num at h3
  exact h3

lemma sleep_bits (old : ℕ) :
    Nat.testBit ((old &&& 0x7F) ||| 0x10) 4 = true ∧
    Nat.testBit ((old &&& 0x7F) ||| 0x10) 7 = false ∧
    ∀ i, i < 8 → i ≠ 4 → i ≠ 7 →
      Nat.testBit ((old &&& 0x7F) ||| 0x10) i = Nat.testBit old i := by
  have h127 : ∀ i, i < 7 → Nat.testBit 127 i = true := by decide
  have h127f : Nat.testBit 127 7 = false := by decide
  have h16t : Nat.testBit 16 4 = true := by decide
  have h16f : ∀ i, i < 8 → i ≠ 4 → Nat.testBit 16 i = false := by decide
  refine ⟨?_, ?_, ?_⟩
  · simp [Nat.testBit_or, h16t]
  · simp [Nat.testBit_or, Nat.testBit_and, h127f, h16f]
  · intro i h1 h4 h7
    interval_cases i
    all_goals first
      | exact absurd rfl h4
      | exact absurd rfl h7
      | simp [Nat.testBit_or, Nat.testBit_and, h127, h16f]

/-! ## Claims -/

/-- C2: for every dutyValue in [0,4095] with invert=false, setPin calls setPWM
with on=0 and off=dutyValue, except dutyValue=4095 gives on=4096 (off=0) and
dutyValue=0 gives off=4096 (on=0). -/
theorem setPin_noninverted_mapping (env : BusEnv) (num v : ℕ) (h : v ≤ 4095) :
    setPin env num v false =
      setPWM env num (if v = 4095 then 4096 else 0)
        (if v = 4095 then 0 else if v = 0 then 4096 else v) := by
  have hm : min v 4095 = v := min_eq_left h
  rcases eq_or_ne v 4095 with h1 | h1 <;> rcases eq_or_ne v 0 with h2 | h2 <;>
    simp_all [setPin, setPinFrom, setPinArgs, setPWM]

/-- Witness for C2 at the three regimes: v = 4095, v = 0, v = 1234. -/
theorem setPin_noninverted_mapping_witness :
    setPin envAllOk 3 4095 false =
      setPWM envAllOk 3 (if 4095 = 4095 then 4096 else 0)
        (if 4095 = 4095 then 0 else if 4095 = 0 then 4096 else 4095) ∧
    setPin envAllOk 3 0 false =
      setPWM envAllOk 3 (if 0 = 4095 then 4096 else 0)
        (if 0 = 4095 then 0 else if 0 = 0 then 4096 else 0) ∧
    setPin envAllOk 3 1234 false =
      setPWM envAllOk 3 (if 1234 = 4095 then 4096 else 0)
        (if 1234 = 4095 then 0 else if 1234 = 0 then 4096 else 1234) :=
  ⟨setPin_noninverted_mapping envAllOk 3 4095 (by norm_num),
   setPin_noninverted_mapping envAllOk 3 0 (by norm_num),
   setPin_noninverted_mapping envAllOk 3 1234 (by norm_num)⟩

/-- C3: for every dutyValue in [0,4095] with invert=true, setPin calls setPWM
with on=0 and off=4095−dutyValue, except dutyValue=0 gives on=4096 (off=0)
and dutyValue=4095 gives off=4096 (on=0). -/
theorem setPin_inverted_mapping (env : BusEnv) (num v : ℕ) (h : v ≤ 4095) :
    setPin env num v true =
      setPWM env num (if v = 0 then 4096 else 0)
        (if v = 0 then 0 else if v = 4095 then 4096 else 4095 - v) := by
  have hm : min v 4095 = v := min_eq_left h
  rcases eq_or_ne v 0 with h1 | h1 <;> rcases eq_or_ne v 4095 with h2 | h2 <;>
    simp_all [setPin, setPinFrom, setPinArgs, setPWM]

/-- Witness for C3 at the three regimes: v = 0, v = 4095, v = 1234. -/
theorem setPin_inverted_mapping_witness :
    setPin envAllOk 3 0 true =
      setPWM envAllOk 3 (if 0 = 0 then 4096 else 0)
        (if 0 = 0 then 0 else if 0 = 4095 then 4096 else 4095 - 0) ∧
    setPin envAllOk 3 4095 true =
      setPWM envAllOk 3 (if 4095 = 0 then 4096 else 0)
        (if 4095 = 0 then 0 else if 4095 = 4095 then 4096 else 4095 - 4095) ∧
    setPin envAllOk 3 1234 true =
      setPWM envAllOk 3 (if 1234 = 0 then 4096 else 0)
        (if 1234 = 0 then 0 else if 1234 = 4095 then 4096 else 4095 - 1234) :=
  ⟨setPin_inverted_mapping envAllOk 3 0 (by norm_num),
   setPin_inverted_mapping envAllOk 3 4095 (by norm_num),
   setPin_inverted_mapping envAllOk 3 1234 (by norm_num)⟩

/-- C4: for every dutyValue above 4095 (up to the uint16_t maximum) and either
invert setting, setPin behaves exactly as setPin with dutyValue 4095: the
value is clamped before the mapping and the call is not rejected. -/
theorem setPin_clamps_out_of_range (env : BusEnv) (num v : ℕ) (invert : Bool)
    (h1 : 4095 < v) (h2 : v ≤ 65535) :
    setPin env num v invert = setPin env num 4095 invert := by
  have hm : min v 4095 = 4095 := min_eq_right h1.le
  simp [setPin, setPinFrom, setPinArgs, hm]

/-- Witness for C4: v = 65535 non-inverted and v = 4096 inverted. -/
theorem setPin_clamps_out_of_range_witness :
    setPin envAllOk 3 65535 false = setPin envAllOk 3 4095 false ∧
    setPin envAllOk 3 4096 true = setPin envAllOk 3 4095 true :=
  ⟨setPin_clamps_out_of_range envAllOk 3 65535 false (by norm_num) (by norm_num),
   setPin_clamps_out_of_range envAllOk 3 4096 true (by norm_num) (by norm_num)⟩

/-- C8: when the address phase succeeds (end status 0) but zero bytes become
available, read8 returns failure and the caller's output location is
unchanged; moreover on every failure path the output location is unchanged. -/
theorem read8_failure_leaves_output (endStatus avail busByte out : ℕ) :
    (endStatus = 0 → avail = 0 →
      read8Detail endStatus avail busByte out = (false, out)) ∧
    ((read8Detail endStatus avail busByte out).fst = false →
      (read8Detail endStatus avail busByte out).snd = out) := by
  constructor
  · intro h1 h2
    simp [read8Detail, h1, h2]
  · intro h
    by_cases h1 : endStatus ≠ 0 <;> by_cases h2 : avail = 0 <;>
      simp_all [read8Detail]

/-- Witness for C8: end status 0, zero bytes available, output location
holding 0x42 beforehand. -/
theorem read8_failure_leaves_output_witness :
    read8Detail 0 0 0x99 0x42 = (false, 0x42) :=
  (read8_failure_leaves_output 0 0 0x99 0x42).1 rfl rfl

/-- C9: reset issues exactly one register write, of 0x80 to MODE1; on success
it delays 10 time-units and returns true, on failure it returns false with no
delay. -/
theorem reset_sequence (env : BusEnv) :
    (env.writeResult 0 = true →
      reset env = (true, ⟨1, 0, [BusOp.writeReg PCA9685_MODE1 0x80, BusOp.delayMs 10]⟩)) ∧
    (env.writeResult 0 = false →
      reset env = (false, ⟨1, 0, [BusOp.writeReg PCA9685_MODE1 0x80]⟩)) := by
  constructor <;> intro h <;>
    simp [reset, resetFrom, write8, delayOp, initState, h, PCA9685_MODE1]

/-- Witness for C9: a transport that acknowledges and one that never does. -/
theorem reset_sequence_witness :
    reset envAllOk = (true, ⟨1, 0, [BusOp.writeReg PCA9685_MODE1 0x80, BusOp.delayMs 10]⟩) ∧
    reset envAllFail = (false, ⟨1, 0, [BusOp.writeReg PCA9685_MODE1 0x80]⟩) :=
  ⟨(reset_sequence envAllOk).1 rfl, (reset_sequence envAllFail).2 rfl⟩

/-- C10: setPWM performs no range check on the channel number: for every num
up to 255 it issues the 5-byte transmission with register address
(LED0_ON_L + 4*num) mod 256 and returns the transport's end-of-transmission
status. -/
theorem setPWM_no_range_check (env : BusEnv) (num onT offT : ℕ) (h : num ≤ 255) :
    (setPWM env num onT offT).fst = env.writeResult 0 ∧
    (setPWM env num onT offT).snd.events =
      [BusOp.pwmWrite [(LED0_ON_L + 4 * num) % 256,
        onT % 256, (onT >>> 8) % 256, offT % 256, (offT >>> 8) % 256]] := by
  simp [setPWM, setPWMFrom, pwmBytes, initState]

/-- Witness for C10 at the out-of-range channel 200. -/
theorem setPWM_no_range_check_witness :
    (setPWM envAllOk 200 4096 0).fst = envAllOk.writeResult 0 ∧
    (setPWM envAllOk 200 4096 0).snd.events =
      [BusOp.pwmWrite [(LED0_ON_L + 4 * 200) % 256,
        4096 % 256, (4096 >>> 8) % 256, 0 % 256, (0 >>> 8) % 256]] :=
  setPWM_no_range_check envAllOk 200 4096 0 (by norm_num)

/-- C1 (counterexample): with the chip reporting MODE1 = 0x80 (restart bit
set), the sleep-step write carries 0x10, not 0x80 ||| 0x10 = 0x90: bit 7 is
not preserved from the read. -/
theorem setPWMFreq_sleep_write_cex :
    (setPWMFreq envRestartSet 1000).snd.events.take 2 =
      [BusOp.readReg PCA9685_MODE1, BusOp.writeReg PCA9685_MODE1 0x10] ∧
    (0x10 : ℕ) ≠ 0x80 ||| 0x10 := by
  constructor
  · simp [setPWMFreq, setPWMFreqFrom, read8, write8, delayOp, initState,
          envRestartSet, prescale_1000, PCA9685_MODE1]
    decide
  · decide

/-- C1 (amended): the sleep-step write of setPWMFreq writes
(oldmode &&& 0x7F) ||| 0x10: the sleep bit (bit 4) is set, the restart bit
(bit 7) is cleared, and every other bit is exactly as obtained from the
preceding read of MODE1, for every value read. -/
theorem setPWMFreq_sleep_write (env : BusEnv) (f : ℚ) (old : ℕ)
    (hr : env.readResult 0 = some old) (hold : old < 256) :
    (setPWMFreq env f).snd.events.take 2 =
      [BusOp.readReg PCA9685_MODE1,
       BusOp.writeReg PCA9685_MODE1 ((old &&& 0x7F) ||| 0x10)] ∧
    Nat.testBit ((old &&& 0x7F) ||| 0x10) 4 = true ∧
    Nat.testBit ((old &&& 0x7F) ||| 0x10) 7 = false ∧
    ∀ i, i < 8 → i ≠ 4 → i ≠ 7 →
      Nat.testBit ((old &&& 0x7F) ||| 0x10) i = Nat.testBit old i := by
  refine ⟨?_, (sleep_bits old).1, (sleep_bits old).2.1, (sleep_bits old).2.2⟩
  cases h0 : env.writeResult 0 <;> cases h1 : env.writeResult 1 <;>
    cases h2 : env.writeResult 2 <;> cases h3 : env.writeResult 3 <;>
      simp [setPWMFreq, setPWMFreqFrom, read8, write8, delayOp, initState, hr,
            h0, h1, h2, h3, Nat.mod_eq_of_lt hold,
            Nat.mod_eq_of_lt (sleepmode_lt old), PCA9685_MODE1]

/-- Witness for the amended C1 at envRestartSet (MODE1 reads back 0x80). -/
theorem setPWMFreq_sleep_write_witness :
    (setPWMFreq envRestartSet 1000).snd.events.take 2 =
      [BusOp.readReg PCA9685_MODE1,
       BusOp.writeReg PCA9685_MODE1 ((0x80 &&& 0x7F) ||| 0x10)] ∧
    Nat.testBit ((0x80 &&& 0x7F) ||| 0x10) 4 = true ∧
    Nat.testBit ((0x80 &&& 0x7F) ||| 0x10) 7 = false ∧
    ∀ i, i < 8 → i ≠ 4 → i ≠ 7 →
      Nat.testBit ((0x80 &&& 0x7F) ||| 0x10) i = Nat.testBit 0x80 i :=
  setPWMFreq_sleep_write envRestartSet 1000 0x80 rfl (by norm_num)

/-- C5 (counterexample): setPWMFreq(1000) computes prescale 6 (the add-0.5
then truncate rounding of 25000000/4096/900 − 1 ≈ 5.78), not 7: the third
bus operation writes 6 to PRESCALE. -/
theorem setPWMFreq_1000_prescale_cex :
    prescaleFromFreq 1000 = 6 ∧ (6 : ℕ) ≠ 7 ∧
    (setPWMFreq envAllOk 1000).snd.events.take 3 =
      [BusOp.readReg PCA9685_MODE1, BusOp.writeReg PCA9685_MODE1 0x10,
       BusOp.writeReg PCA9685_PRESCALE 6] := by
  refine ⟨prescale_1000, by decide, ?_⟩
  simp [setPWMFreq, setPWMFreqFrom, read8, write8, delayOp, initState,
        envAllOk, prescale_1000, PCA9685_MODE1, PCA9685_PRESCALE]

/-- C5 (amended): setFrequency(1000) computes prescale 6 and, when every bus
operation succeeds, issues exactly: read MODE1, write MODE1 with
(old &&& 0x7F) ||| 0x10 (sleep bit set), write PRESCALE with 6, write MODE1
with the originally read value, delay, write MODE1 with old ||| 0xA0. -/
theorem setPWMFreq_1000_sequence (env : BusEnv) (old : ℕ)
    (hr : env.readResult 0 = some old) (hold : old < 256)
    (hw : ∀ i, env.writeResult i = true) :
    prescaleFromFreq 1000 = 6 ∧
    Nat.testBit ((old &&& 0x7F) ||| 0x10) 4 = true ∧
    setPWMFreq env 1000 =
      (true, ⟨4, 1, [BusOp.readReg PCA9685_MODE1,
                     BusOp.writeReg PCA9685_MODE1 ((old &&& 0x7F) ||| 0x10),
                     BusOp.writeReg PCA9685_PRESCALE 6,
                     BusOp.writeReg PCA9685_MODE1 old,
                     BusOp.delayMs 5,
                     BusOp.writeReg PCA9685_MODE1 (old ||| 0xA0)]⟩) := by
  refine ⟨prescale_1000, (sleep_bits old).1, ?_⟩
  simp [setPWMFreq, setPWMFreqFrom, read8, write8, delayOp, initState, hr, hw,
        prescale_1000, Nat.mod_eq_of_lt hold, Nat.mod_eq_of_lt (sleepmode_lt old),
        Nat.mod_eq_of_lt (orA0_lt hold), PCA9685_MODE1, PCA9685_PRESCALE]

/-- Witness for the amended C5 at envRestartSet (MODE1 reads back 0x80). -/
theorem setPWMFreq_1000_sequence_witness :
    prescaleFromFreq 1000 = 6 ∧
    Nat.testBit ((0x80 &&& 0x7F) ||| 0x10) 4 = true ∧
    setPWMFreq envRestartSet 1000 =
      (true, ⟨4, 1, [BusOp.readReg PCA9685_MODE1,
                     BusOp.writeReg PCA9685_MODE1 ((0x80 &&& 0x7F) ||| 0x10),
                     BusOp.writeReg PCA9685_PRESCALE 6,
                     BusOp.writeReg PCA9685_MODE1 0x80,
                     BusOp.delayMs 5,
                     BusOp.writeReg PCA9685_MODE1 (0x80 ||| 0xA0)]⟩) :=
  setPWMFreq_1000_sequence envRestartSet 0x80 rfl (by norm_num) (fun _ => rfl)

/-- C6 (counterexample): if the chip reports MODE1 = 0x10 (sleep bit already
set), setPWMFreq succeeds yet the last value written to MODE1 is
0x10 ||| 0xA0 = 0xB0, whose sleep bit is still set. -/
theorem setPWMFreq_sleep_clear_cex :
    (setPWMFreq envSleepSet 1000).fst = true ∧
    (setPWMFreq envSleepSet 1000).snd.events.getLast? =
      some (BusOp.writeReg PCA9685_MODE1 0xB0) ∧
    Nat.testBit 0xB0 4 = true := by
  have h : setPWMFreq envSleepSet 1000 =
      (true, ⟨4, 1, [BusOp.readReg 0x00, BusOp.writeReg 0x00 0x10,
                     BusOp.writeReg 0xFE 6, BusOp.writeReg 0x00 0x10,
                     BusOp.delayMs 5, BusOp.writeReg 0x00 0xB0]⟩) := by
    simp [setPWMFreq, setPWMFreqFrom, read8, write8, delayOp, initState,
          envSleepSet, prescale_1000, PCA9685_MODE1, PCA9685_PRESCALE]
    decide
  refine ⟨by rw [h], ?_, by decide⟩
  rw [h]
  rfl

/-- C6 (amended): for every initial MODE1 value whose sleep bit is clear, if
the read and all writes succeed then setPWMFreq returns true and the last
value written to MODE1 (old ||| 0xA0) has the sleep bit clear. -/
theorem setPWMFreq_sleep_clear (env : BusEnv) (f : ℚ) (old : ℕ)
    (hr : env.readResult 0 = some old) (hold : old < 256)
    (hsleep : Nat.testBit old 4 = false)
    (hw : ∀ i, env.writeResult i = true) :
    setPWMFreq env f =
      (true, ⟨4, 1, [BusOp.readReg PCA9685_MODE1,
                     BusOp.writeReg PCA9685_MODE1 ((old &&& 0x7F) ||| 0x10),
                     BusOp.writeReg PCA9685_PRESCALE (prescaleFromFreq f),
                     BusOp.writeReg PCA9685_MODE1 old,
                     BusOp.delayMs 5,
                     BusOp.writeReg PCA9685_MODE1 (old ||| 0xA0)]⟩) ∧
    Nat.testBit (old ||| 0xA0) 4 = false := by
  constructor
  · simp [setPWMFreq, setPWMFreqFrom, read8, write8, delayOp, initState, hr, hw,
          Nat.mod_eq_of_lt hold, Nat.mod_eq_of_lt (sleepmode_lt old),
          Nat.mod_eq_of_lt (orA0_lt hold), Nat.mod_eq_of_lt (prescale_lt f),
          PCA9685_MODE1, PCA9685_PRESCALE]
  · have hA0 : Nat.testBit 0xA0 4 = false := by decide
    simp [Nat.testBit_or, hsleep, hA0]

/-- Witness for the amended C6 at envAllOk (MODE1 reads back 0x00). -/
theorem setPWMFreq_sleep_clear_witness :
    setPWMFreq envAllOk 1000 =
      (true, ⟨4, 1, [BusOp.readReg PCA9685_MODE1,
                     BusOp.writeReg PCA9685_MODE1 ((0x00 &&& 0x7F) ||| 0x10),
                     BusOp.writeReg PCA9685_PRESCALE (prescaleFromFreq 1000),
                     BusOp.writeReg PCA9685_MODE1 0x00,
                     BusOp.delayMs 5,
                     BusOp.writeReg PCA9685_MODE1 (0x00 ||| 0xA0)]⟩) ∧
    Nat.testBit (0x00 ||| 0xA0) 4 = false :=
  setPWMFreq_sleep_clear envAllOk 1000 0x00 rfl (by norm_num) (by decide)
    (fun _ => rfl)

/-- C7: in every public operation, a register-write transmission whose end
status is nonzero makes the operation return failure with no further reads,
writes, or delays in that call: stated for reset, begin (reset write
failing), each of the four write steps of setPWMFreq, setPWM, and setPin. -/
theorem write_failure_stops_operation :
    (∀ env : BusEnv, env.writeResult 0 = false →
      reset env = (false, ⟨1, 0, [BusOp.writeReg PCA9685_MODE1 0x80]⟩)) ∧
    (∀ env : BusEnv, env.writeResult 0 = false →
      beginOp env = (false, ⟨1, 0, [BusOp.writeReg PCA9685_MODE1 0x80]⟩)) ∧
    (∀ (env : BusEnv) (f : ℚ) (old : ℕ),
      env.readResult 0 = some old → old < 256 →
      env.writeResult 0 = false →
      setPWMFreq env f = (false, ⟨1, 1,
        [BusOp.readReg PCA9685_MODE1,
         BusOp.writeReg PCA9685_MODE1 ((old &&& 0x7F) ||| 0x10)]⟩)) ∧
    (∀ (env : BusEnv) (f : ℚ) (old : ℕ),
      env.readResult 0 = some old → old < 256 →
      env.writeResult 0 = true → env.writeResult 1 = false →
      setPWMFreq env f = (false, ⟨2, 1,
        [BusOp.readReg PCA9685_MODE1,
         BusOp.writeReg PCA9685_MODE1 ((old &&& 0x7F) ||| 0x10),
         BusOp.writeReg PCA9685_PRESCALE (prescaleFromFreq f)]⟩)) ∧
    (∀ (env : BusEnv) (f : ℚ) (old : ℕ),
      env.readResult 0 = some old → old < 256 →
      env.writeResult 0 = true → env.writeResult 1 = true →
      env.writeResult 2 = false →
      setPWMFreq env f = (false, ⟨3, 1,
        [BusOp.readReg PCA9685_MODE1,
         BusOp.writeReg PCA9685_MODE1 ((old &&& 0x7F) ||| 0x10),
         BusOp.writeReg PCA9685_PRESCALE (prescaleFromFreq f),
         BusOp.writeReg PCA9685_MODE1 old]⟩)) ∧
    (∀ (env : BusEnv) (f : ℚ) (old : ℕ),
      env.readResult 0 = some old → old < 256 →
      env.writeResult 0 = true → env.writeResult 1 = true →
      env.writeResult 2 = true → env.writeResult 3 = false →
      setPWMFreq env f = (false, ⟨4, 1,
        [BusOp.readReg PCA9685_MODE1,
         BusOp.writeReg PCA9685_MODE1 ((old &&& 0x7F) ||| 0x10),
         BusOp.writeReg PCA9685_PRESCALE (prescaleFromFreq f),
         BusOp.writeReg PCA9685_MODE1 old,
         BusOp.delayMs 5,
         BusOp.writeReg PCA9685_MODE1 (old ||| 0xA0)]⟩)) ∧
    (∀ (env : BusEnv) (num onT offT : ℕ), env.writeResult 0 = false →
      setPWM env num onT offT =
        (false, ⟨1, 0, [BusOp.pwmWrite (pwmBytes num onT offT)]⟩)) ∧
    (∀ (env : BusEnv) (num v : ℕ) (invert : Bool), env.writeResult 0 = false →
      setPin env num v invert = (false, ⟨1, 0,
        [BusOp.pwmWrite
          (pwmBytes num (setPinArgs v invert).1 (setPinArgs v invert).2)]⟩)) := by
  refine ⟨?_, ?_, ?_, ?_, ?_, ?_, ?_, ?_⟩
  · intro env h
    simp [reset, resetFrom, write8, delayOp, initState, h, PCA9685_MODE1]
  · intro env h
    simp [beginOp, resetFrom, write8, delayOp, initState, h, PCA9685_MODE1]
  · intro env f old hr hold h0
    simp [setPWMFreq, setPWMFreqFrom, read8, write8, delayOp, initState, hr, h0,
          Nat.mod_eq_of_lt hold, Nat.mod_eq_of_lt (sleepmode_lt old),
          PCA9685_MODE1]
  · intro env f old hr hold h0 h1
    simp [setPWMFreq, setPWMFreqFrom, read8, write8, delayOp, initState, hr,
          h0, h1, Nat.mod_eq_of_lt hold, Nat.mod_eq_of_lt (sleepmode_lt old),
          Nat.mod_eq_of_lt (prescale_lt f), PCA9685_MODE1, PCA9685_PRESCALE]
  · intro env f old hr hold h0 h1 h2
    simp [setPWMFreq, setPWMFreqFrom, read8, write8, delayOp, initState, hr,
          h0, h1, h2, Nat.mod_eq_of_lt hold, Nat.mod_eq_of_lt (sleepmode_lt old),
          Nat.mod_eq_of_lt (prescale_lt f), PCA9685_MODE1, PCA9685_PRESCALE]
  · intro env f old hr hold h0 h1 h2 h3
    simp [setPWMFreq, setPWMFreqFrom, read8, write8, delayOp, initState, hr,
          h0, h1, h2, h3, Nat.mod_eq_of_lt hold,
          Nat.mod_eq_of_lt (sleepmode_lt old), Nat.mod_eq_of_lt (orA0_lt hold),
          Nat.mod_eq_of_lt (prescale_lt f), PCA9685_MODE1, PCA9685_PRESCALE]
  · intro env num onT offT h
    simp [setPWM, setPWMFrom, initState, h]
  · intro env num v invert h
    simp [setPin, setPinFrom, setPWMFrom, initState, h]

/-- Witness for C7: the reset write failing outright, and the prescale write
(second write of setPWMFreq) failing after a successful sleep write. -/
theorem write_failure_stops_operation_witness :
    reset envAllFail = (false, ⟨1, 0, [BusOp.writeReg PCA9685_MODE1 0x80]⟩) ∧
    setPWMFreq (envFailAt 1) 1000 = (false, ⟨2, 1,
      [BusOp.readReg PCA9685_MODE1,
       BusOp.writeReg PCA9685_MODE1 ((0x21 &&& 0x7F) ||| 0x10),
       BusOp.writeReg PCA9685_PRESCALE (prescaleFromFreq 1000)]⟩) :=
  ⟨write_failure_stops_operation.1 envAllFail rfl,
   write_failure_stops_operation.2.2.2.1 (envFailAt 1) 1000 0x21 rfl
     (by norm_num) (by decide) (by decide)⟩

end PCA9685
